import Mathlib

/-!
Shallow embedding of the orchestration core of the ats-research repository,
together with proofs about its decision logic, concurrency pool, version and
checkpoint stores, refinement loops and merge validation scoring.

Python floats on scores and thresholds are modelled as rationals; Python ints
as integers or naturals where the source guarantees non-negativity; Python
stable sorts (`sorted`) as a stable insertion sort with the corresponding
boolean comparator, which has the same stable semantics.
-/

namespace ATS

/-! Python's `sorted` is a stable sort: a stable sort for a given total
transitive comparator is extensionally unique, so it is embedded here as a
stable insertion sort, which evaluates by structural recursion. `le a b`
means a may be placed before b. -/

/-- Insert an element into a sorted list, in front of the first entry it
may precede; the inserted element came earlier in the original list than
everything already present, so this placement is the stable one. -/
def stable_insert {α : Type} (le : α → α → Bool) (a : α) : List α → List α
  | [] => [a]
  | b :: l => if le a b then a :: b :: l else b :: stable_insert le a l

/-- Stable sort with a boolean comparator (the model of Python sorted). -/
def stable_sort {α : Type} (le : α → α → Bool) : List α → List α
  | [] => []
  | a :: l => stable_insert le a (stable_sort le l)

/-! Decision logic, from src/decisions/decision_logic.py. -/

/-- DocumentEvaluation dataclass (decision_logic.py). The open `metadata`
map is omitted: it is opaque to every decision function. -/
structure DocumentEvaluation where
  score : ℚ
  has_critical_issues : Bool
  has_false_facts : Bool
  issue_count : ℕ
  quality_notes : String
  deriving Repr, DecidableEq

/-- MatchResult dataclass (decision_logic.py). -/
structure MatchResult where
  jd_id : String
  match_score : ℚ
  relevance_score : ℚ
  matched_keywords : List String
  missing_skills : List String
  recommendation : String
  deriving Repr, DecidableEq

/-- decision_logic.has_critical_issues. -/
def has_critical_issues (evaluation : DocumentEvaluation) : Bool :=
  evaluation.has_critical_issues

/-- decision_logic.did_score_decrease: current < previous. -/
def did_score_decrease (current_score previous_score : ℚ) : Bool :=
  decide (current_score < previous_score)

/-- decision_logic.is_score_good_enough: score >= threshold. -/
def is_score_good_enough (score threshold : ℚ) : Bool :=
  decide (threshold ≤ score)

/-- decision_logic.select_top_jds: stable sort by match_score descending
(Python `sorted` with reverse=True), take the first top_n, return jd_ids. -/
def select_top_jds (match_list : List MatchResult) (top_n : ℕ) : List String :=
  let sorted_matches := stable_sort
    (fun a b => decide (b.match_score ≤ a.match_score)) match_list
  (sorted_matches.take top_n).map (fun m => m.jd_id)

/-- decision_logic.calculate_length_score: 0 when the target is 0,
otherwise max(0, 1 - abs(actual - target) / target). -/
def calculate_length_score (actual_length target_length : ℤ) : ℚ :=
  if target_length = 0 then 0
  else max 0 (1 - ((|actual_length - target_length| : ℤ) : ℚ) / (target_length : ℚ))

/-! AgentPool, from src/agents/agent_pool.py. An agent is modelled by the
function its `run` method computes: each invocation either yields an output
or a captured exception (`Except`). The semaphore only gates scheduling, so
the completion order is modelled as an arbitrary reordering (`schedule`) of
the index-tagged results, as produced before the pool re-sorts by index. -/

/-- AgentPool.__init__ validation: pool_size must be None or >= 1. -/
def pool_init_ok (pool_size : Option ℕ) : Bool :=
  match pool_size with
  | none => true
  | some n => decide (1 ≤ n)

/-- AgentPool._execute_one: runs one agent and returns its index-tagged
result (output or captured exception). -/
def execute_one {ι ε α : Type} (run : ι → Except ε α) (input_data : ι)
    (index : ℕ) : ℕ × Except ε α :=
  (index, run input_data)

/-- The index-tagged task results built by AgentPool.execute_agents from
`zip(agents, inputs)` with `enumerate`. -/
def tag_results {ι ε α : Type} (runs : List (ι → Except ε α))
    (inputs : List ι) : List (ℕ × Except ε α) :=
  (runs.zip inputs).enum.map (fun p => execute_one p.2.1 p.2.2 p.1)

/-- The re-sort by index performed at the end of AgentPool.execute_agents
(Python stable `sorted` on the first tuple component). -/
def sort_by_index {β : Type} (l : List (ℕ × β)) : List (ℕ × β) :=
  stable_sort (fun a b => decide (a.1 ≤ b.1)) l

/-- AgentPool.execute_agents: fail fast on mismatched lengths, short-circuit
on the empty batch, otherwise gather the index-tagged results in completion
order, re-sort by index and drop the indices. -/
def execute_agents {ι ε α : Type} (pool_size : Option ℕ)
    (schedule : List (ℕ × Except ε α) → List (ℕ × Except ε α))
    (runs : List (ι → Except ε α)) (inputs : List ι) :
    Except String (List (Except ε α)) :=
  if pool_init_ok pool_size = false then
    .error "pool_size must be >= 1 or None"
  else if runs.length ≠ inputs.length then
    .error "agents and inputs must have same length"
  else if runs.isEmpty then
    .ok []
  else
    .ok ((sort_by_index (schedule (tag_results runs inputs))).map Prod.snd)

/-! VersionStore, from src/agents/writing/version_manager.py ("store"
action) over src/state/state_manager.py. The versions directory is modelled
as the list of saved version records, appended in order. -/

/-- One persisted version file, versions/{document_id}/v{n}.json. -/
structure VersionRecord where
  document_id : String
  version_num : ℕ
  content : String
  deriving Repr, DecidableEq

/-- StateManager.get_latest_version: the max over the version numbers saved
for the document, or none (FileNotFoundError) when there are none. -/
def get_latest_version (store : List VersionRecord) (document_id : String) :
    Option ℕ :=
  ((store.filter (fun r => r.document_id == document_id)).map
    (fun r => r.version_num)).max?

/-- VersionManager.execute with action "store": the next version number is
latest + 1, or 1 when no versions exist; the record is appended. -/
def vm_store (store : List VersionRecord) (document_id content : String) :
    List VersionRecord × ℕ :=
  let next_version :=
    match get_latest_version store document_id with
    | some latest_num => latest_num + 1
    | none => 1
  (store ++ [⟨document_id, next_version, content⟩], next_version)

/-- N consecutive "store" calls for one document; returns the final store
and the version numbers handed back, in call order. -/
def vm_store_many (store : List VersionRecord) (document_id : String) :
    List String → List VersionRecord × List ℕ
  | [] => (store, [])
  | c :: cs =>
    let r := vm_store store document_id c
    let rest := vm_store_many r.1 document_id cs
    (rest.1, r.2 :: rest.2)

/-! CheckpointStore, from src/state/state_manager.py. Checkpoint files are
named {stage}_{timestamp}.json; save_checkpoint appends one, and
list_checkpoints sorts the files by FILENAME descending (Python
`sorted(files, reverse=True)`), although its docstring promises sorting by
timestamp. Timestamps are the fixed-width strings of
datetime.utcnow().strftime, so comparing them as strings agrees with
comparing the creation times. -/

/-- One saved checkpoint: stage name, payload, creation timestamp
(fixed-width "%Y%m%d_%H%M%S" string). -/
structure Checkpoint where
  stage : String
  payload : String
  created_at : String
  deriving Repr, DecidableEq

/-- The file name save_checkpoint writes: {stage}_{timestamp}.json. -/
def checkpoint_filename (c : Checkpoint) : String :=
  c.stage ++ "_" ++ c.created_at ++ ".json"

/-- StateManager.save_checkpoint: append-only write of one checkpoint. -/
def save_checkpoint (saved : List Checkpoint) (stage payload created_at : String) :
    List Checkpoint :=
  saved ++ [⟨stage, payload, created_at⟩]

/-- Python string comparison: lexicographic on the code points of the
characters (the relation of Lean's String.lt, embedded so it evaluates by
structural recursion). -/
def chars_lt : List Char → List Char → Bool
  | [], [] => false
  | [], _ :: _ => true
  | _ :: _, [] => false
  | a :: as, b :: bs =>
    if a.val < b.val then true
    else if b.val < a.val then false
    else chars_lt as bs

/-- Python `<` on strings. -/
def str_lt (a b : String) : Bool :=
  chars_lt a.data b.data

/-- StateManager.list_checkpoints: all checkpoint files sorted by FILE NAME
in descending order (stable, as Python sorted with reverse=True); the file
name starts with the stage, not the timestamp. -/
def list_checkpoints (saved : List Checkpoint) : List Checkpoint :=
  stable_sort (fun a b => !str_lt (checkpoint_filename a) (checkpoint_filename b))
    saved

/-- StateManager.load_latest_checkpoint: None when no checkpoints exist,
otherwise the head of list_checkpoints, returned as (stage, record). -/
def load_latest_checkpoint (saved : List Checkpoint) :
    Option (String × Checkpoint) :=
  match list_checkpoints saved with
  | [] => none
  | latest :: _ => some (latest.stage, latest)

/-! DocumentEvaluator.format_output, from
src/agents/writing/document_evaluator.py. The raw Task-tool payload is a
dict with possibly missing fields, or something else entirely. -/

/-- The raw evaluation dict as returned by the delegated call; every field
may be missing. -/
structure RawEvalDict where
  instruction : Option String
  score : Option ℚ
  has_critical_issues : Option Bool
  has_false_facts : Option Bool
  issue_count : Option ℕ
  quality_notes : Option String
  deriving Repr, DecidableEq

/-- Raw output handed to format_output: a dict, or an unexpected value
(kept only as its printed representation). -/
inductive RawOutput where
  | dict (d : RawEvalDict)
  | other (shown : String)
  deriving Repr, DecidableEq

/-- Result of format_output: a CALL_TASK_TOOL instruction dict is passed
through unchanged; anything else becomes a DocumentEvaluation. -/
inductive FormattedEvaluation where
  | passthrough (d : RawEvalDict)
  | evaluation (e : DocumentEvaluation)
  deriving Repr, DecidableEq

/-- The in-range check and clamp at the end of format_output:
if not (0.0 <= score <= 1.0), set score := max(0.0, min(1.0, score)). -/
def clamp_score_step (e : DocumentEvaluation) : DocumentEvaluation :=
  if 0 ≤ e.score ∧ e.score ≤ 1 then e
  else { e with score := max 0 (min 1 e.score) }

/-- DocumentEvaluator.format_output: pass through a pre-execution task
instruction, fill defaults for missing dict fields, fall back to a failed
evaluation for unexpected payloads, then clamp the score into range. -/
def document_evaluator_format_output (raw_output : RawOutput) :
    FormattedEvaluation :=
  match raw_output with
  | .dict d =>
    if d.instruction = some "CALL_TASK_TOOL" then .passthrough d
    else
      .evaluation (clamp_score_step
        { score := d.score.getD 0
          has_critical_issues := d.has_critical_issues.getD false
          has_false_facts := d.has_false_facts.getD false
          issue_count := d.issue_count.getD 0
          quality_notes := d.quality_notes.getD "" })
  | .other _ =>
      .evaluation (clamp_score_step
        { score := 0
          has_critical_issues := true
          has_false_facts := false
          issue_count := 1
          quality_notes := "Evaluation failed - unexpected output format" })

/-! Merge validation scoring, from src/merger/validators.py and the
iterative loop of MergerEngine.merge (src/merger/merger_engine.py). -/

/-- ValidationResult dataclass (validators.py). -/
structure ValidationResult where
  passed : Bool
  score : ℚ
  details : String
  issues : List String
  coverage : ℚ
  deriving Repr, DecidableEq

/-- The default validator weights of calculate_confidence_score, keyed by
validator name in the order MergerEngine._run_validators produces them. -/
def default_confidence_weights : List (String × ℚ) :=
  [("r1_principles", 3/10), ("r2_examples", 1/4),
   ("section_completeness", 1/4), ("actionability", 1/5)]

/-- validators.calculate_confidence_score: weighted sum of validator scores
divided by the total weight; missing names weigh 1/len; 0 on empty input. -/
def calculate_confidence_score
    (validation_results : List (String × ValidationResult))
    (weights : Option (List (String × ℚ))) : ℚ :=
  if validation_results.isEmpty then 0
  else
    let ws := weights.getD default_confidence_weights
    let weight_of := fun (name : String) =>
      match ws.lookup name with
      | some w => w
      | none => 1 / (validation_results.length : ℚ)
    let total_score :=
      (validation_results.map (fun p => p.2.score * weight_of p.1)).sum
    let total_weight :=
      (validation_results.map (fun p => weight_of p.1)).sum
    if 0 < total_weight then total_score / total_weight else 0

/-- The three ways one iteration of MergerEngine.merge's while-loop can
proceed after computing the confidence score. -/
inductive MergeLoopDecision where
  | threshold_met
  | max_iterations_hit
  | refine
  deriving Repr, DecidableEq

/-- The branch structure of MergerEngine.merge's loop body: accept when
confidence >= threshold, stop when iteration >= max_iterations, otherwise
run a refinement call. -/
def merge_loop_decision (confidence quality_threshold : ℚ)
    (iteration max_iterations : ℕ) : MergeLoopDecision :=
  if quality_threshold ≤ confidence then .threshold_met
  else if max_iterations ≤ iteration then .max_iterations_hit
  else .refine

/-! The writing/polishing workflow, from
BaseWritingPolishingOrchestra.execute (steps 6-9) in
src/orchestrators/writing_polishing_orchestra.py. Draft contents are an
abstract type; the delegated evaluator, fixer and polisher are functions
of the iteration number and current draft, returning `none` when the agent
came back with a CALL_TASK_TOOL instruction dict instead of a result.

Every version_manager.run call this orchestrator makes (the step-6
version-0 store, the loop's fix/polish stores and its restore) passes the
keys action, draft, version_number and document_type, while
VersionManager.validate_input reads action, document_id, content and
version_num; likewise the loop's issue_fixer.run call omits the required
parsed_jd key. BaseAgent.run raises ValueError whenever validate_input
returns False, so each of these calls is modelled as a validation gate
that, when it fails, aborts the computation with the raised error. -/

/-- The values VersionManager.validate_input reads from its input dict,
with the .get defaults already applied: action, document_id and content
default to "" (a non-string counts like an empty one for the checks) and
version_num to None. -/
structure VMInput where
  action : String
  document_id : String
  content : String
  version_num : Option ℤ
  deriving Repr, DecidableEq

/-- Python str.strip on the character list: drop whitespace from both
ends. -/
def py_strip_chars (l : List Char) : List Char :=
  ((l.dropWhile Char.isWhitespace).reverse.dropWhile Char.isWhitespace).reverse

/-- VersionManager.validate_input: the action must be store or restore;
document_id must be non-empty after stripping; a store needs content of at
least 10 stripped characters; a restore needs an integer version_num of at
least 1. -/
def vm_validate_input (d : VMInput) : Bool :=
  if d.action ≠ "store" ∧ d.action ≠ "restore" then false
  else if (py_strip_chars d.document_id.data).isEmpty then false
  else if d.action = "store" then
    decide (10 ≤ (py_strip_chars d.content.data).length)
  else
    match d.version_num with
    | none => false
    | some v => decide (1 ≤ v)

/-- The ValueError message BaseAgent.run raises when VersionManager input
validation fails. -/
def vm_invalid_input_error : String :=
  "Invalid input data for version_manager. Check logs for validation details."

/-- The ValueError message BaseAgent.run raises when IssueFixer input
validation fails. -/
def issue_fixer_invalid_error : String :=
  "Invalid input data for issue_fixer. Check logs for validation details."

/-- What VersionManager.validate_input sees for every "store" call this
orchestrator makes (step 6 and the loop's fix/polish stores): the dict
{action, draft, version_number, document_type} has no document_id, content
or version_num key, so the .get defaults apply. -/
def orchestra_store_version_input : VMInput :=
  { action := "store", document_id := "", content := "", version_num := none }

/-- What VersionManager.validate_input sees for the loop's restore call:
the dict {action, version_number, document_type} again has no document_id
or version_num key. -/
def orchestra_restore_version_input : VMInput :=
  { action := "restore", document_id := "", content := "", version_num := none }

/-- IssueFixer.validate_input's missing-keys check on the orchestrator's
fixer_input dict {draft, evaluation, document_type}: every required key
must be present. The required parsed_jd key is absent, so validation fails
here and the later per-field checks are never reached. -/
def issue_fixer_input_valid : Bool :=
  ["draft", "evaluation", "parsed_jd"].all
    (fun k => ["draft", "evaluation", "document_type"].contains k)

/-- The delegated calls the loop makes, one instance per run. The fixer's
and the polisher's results only matter on paths their input validation
lets through. -/
structure WritingLoopParams (δ : Type) where
  max_iterations : ℕ
  quality_threshold : ℚ
  evaluate : ℕ → δ → Option DocumentEvaluation
  fix_issues : ℕ → δ → Option δ
  polish : ℕ → δ → Option δ

/-- The loop variables initialised at step 7 of execute. -/
structure WritingLoopState (δ : Type) where
  iteration : ℕ
  version_counter : ℕ
  previous_score : ℚ
  best_version : ℕ
  best_score : ℚ
  initial_score : ℚ
  current_draft : δ
  evaluation_path : List String
  deriving Repr, DecidableEq

/-- The step-7 initialisation of the loop variables (iteration 0,
version_counter 1, scores 0, empty path). In the current source these
assignments are unreachable — the step-6 version store raises first — but
the loop is modelled from them so its decision tree can be analysed. -/
def initial_writing_state {δ : Type} (processed_draft : δ) :
    WritingLoopState δ :=
  { iteration := 0, version_counter := 1, previous_score := 0,
    best_version := 0, best_score := 0, initial_score := 0,
    current_draft := processed_draft, evaluation_path := [] }

/-- The default evaluation execute substitutes when DocumentEvaluator
returns a CALL_TASK_TOOL instruction. -/
def default_task_instruction_evaluation : DocumentEvaluation :=
  { score := 1/2, has_critical_issues := false, has_false_facts := false,
    issue_count := 0, quality_notes := "Manual evaluation required" }

/-- One loop iteration falls through to the next one, breaks, or aborts
the whole run with a ValueError raised by a delegated call's input
validation. -/
inductive WritingStepResult (δ : Type) where
  | next (st : WritingLoopState δ)
  | stop (st : WritingLoopState δ)
  | raised (msg : String)

/-- One iteration of the evaluation loop (steps 7a-7g): evaluate, update
best score/version, then branch exactly as the source decision tree does.
The issue-fix branch appends its path entry and then calls
issue_fixer.run, whose validation gate fails (fixer_input lacks
parsed_jd); the restore branch calls version_manager.run, whose gate fails
(no document_id/version_num); each fix/polish store likewise fails its
gate. The gates' success arms mirror the source's post-call code but are
unreachable — in the restore arm no restored value exists to model, so the
draft is passed through. -/
def writing_loop_step {δ : Type} (p : WritingLoopParams δ)
    (st : WritingLoopState δ) : WritingStepResult δ :=
  let iteration := st.iteration + 1
  let evaluation := (p.evaluate iteration st.current_draft).getD
    default_task_instruction_evaluation
  let current_score := evaluation.score
  let initial_score := if iteration = 1 then current_score else st.initial_score
  let best_score := if st.best_score < current_score then current_score
    else st.best_score
  let best_version := if st.best_score < current_score then st.version_counter - 1
    else st.best_version
  if has_critical_issues evaluation then
    if issue_fixer_input_valid then
      match p.fix_issues iteration st.current_draft with
      | none =>
        .next { st with
          iteration := iteration
          initial_score := initial_score
          best_score := best_score
          best_version := best_version
          evaluation_path := st.evaluation_path ++ ["issue_fix"]
          previous_score := current_score }
      | some fixed_draft =>
        if vm_validate_input orchestra_store_version_input then
          .next { st with
            iteration := iteration
            initial_score := initial_score
            best_score := best_score
            best_version := best_version
            current_draft := fixed_draft
            version_counter := st.version_counter + 1
            evaluation_path := st.evaluation_path ++ ["issue_fix"]
            previous_score := current_score }
        else .raised vm_invalid_input_error
    else .raised issue_fixer_invalid_error
  else if decide (1 < iteration) && did_score_decrease current_score st.previous_score then
    if vm_validate_input orchestra_restore_version_input then
      .stop { st with
        iteration := iteration
        initial_score := initial_score
        best_score := best_score
        best_version := best_version
        evaluation_path := st.evaluation_path ++ ["restore"] }
    else .raised vm_invalid_input_error
  else if is_score_good_enough current_score p.quality_threshold then
    .stop { st with
      iteration := iteration
      initial_score := initial_score
      best_score := best_score
      best_version := best_version
      evaluation_path := st.evaluation_path ++ ["complete"] }
  else
    match p.polish iteration st.current_draft with
    | none =>
      .next { st with
        iteration := iteration
        initial_score := initial_score
        best_score := best_score
        best_version := best_version
        evaluation_path := st.evaluation_path ++ ["polish"]
        previous_score := current_score }
    | some polished_draft =>
      if vm_validate_input orchestra_store_version_input then
        .next { st with
          iteration := iteration
          initial_score := initial_score
          best_score := best_score
          best_version := best_version
          current_draft := polished_draft
          version_counter := st.version_counter + 1
          evaluation_path := st.evaluation_path ++ ["polish"]
          previous_score := current_score }
      else .raised vm_invalid_input_error

/-- How a run of the evaluation loop ends: the while-loop finished (a
break or the iteration guard), or a ValueError propagated out of
execute. -/
inductive WritingLoopOutcome (δ : Type) where
  | finished (st : WritingLoopState δ)
  | raised (msg : String)
  deriving Repr, DecidableEq

/-- The while-loop of step 8. The fuel counts the iterations still allowed
by `iteration < max_iterations`; every iteration increments `iteration` by
exactly one, so starting with fuel = max_iterations is the loop guard. -/
def writing_loop_run {δ : Type} (p : WritingLoopParams δ) :
    ℕ → WritingLoopState δ → WritingLoopOutcome δ
  | 0, st => .finished st
  | fuel + 1, st =>
    match writing_loop_step p st with
    | .stop st2 => .finished st2
    | .raised msg => .raised msg
    | .next st2 => writing_loop_run p fuel st2

/-- Steps 6-8 of execute: the step-6 version-0 store (a
version_manager.run call with the orchestrator's keys), then the
evaluation loop. The store's validation gate fails on the orchestrator's
input, so every run aborts here with ValueError before the loop. -/
def writing_polishing_execute {δ : Type} (p : WritingLoopParams δ)
    (processed_draft : δ) : WritingLoopOutcome δ :=
  if vm_validate_input orchestra_store_version_input then
    writing_loop_run p p.max_iterations (initial_writing_state processed_draft)
  else .raised vm_invalid_input_error

/-- The configuration of the spec's scenario B: max_iterations = 3,
per-iteration scores 0.5, 0.8, 0.6, no critical issues, threshold above
0.8 (0.9), every fix/polish yielding a fresh numbered draft. -/
def scenario_b_params : WritingLoopParams ℕ :=
  { max_iterations := 3
    quality_threshold := mkRat 9 10
    evaluate := fun iteration _ => some
      { score := if iteration = 1 then mkRat 1 2
          else if iteration = 2 then mkRat 4 5 else mkRat 3 5
        has_critical_issues := false
        has_false_facts := false
        issue_count := 0
        quality_notes := "" }
    fix_issues := fun _ d => some (d + 1)
    polish := fun _ d => some (d + 1) }

/-- Scenario C of the spec: the four merge validators scoring
0.9, 0.6, 0.8 and 0.7, in the order _run_validators emits them. -/
def scenario_c_results : List (String × ValidationResult) :=
  [("r1_principles", ⟨true, 9/10, "", [], 90⟩),
   ("r2_examples", ⟨false, 3/5, "", [], 60⟩),
   ("section_completeness", ⟨true, 4/5, "", [], 80⟩),
   ("actionability", ⟨false, 7/10, "", [], 70⟩)]

/-- Three MatchResults scored 0.91, 0.75 and 0.65. -/
def demo_matches : List MatchResult :=
  [⟨"JD-A", mkRat 91 100, mkRat 9 10, [], [], ""⟩,
   ⟨"JD-B", mkRat 3 4, mkRat 7 10, [], [], ""⟩,
   ⟨"JD-C", mkRat 13 20, mkRat 3 5, [], [], ""⟩]

/-- Two checkpoint saves: stage "stage_b" first, then stage "stage_a" with
a strictly later timestamp. -/
def demo_checkpoints : List Checkpoint :=
  save_checkpoint (save_checkpoint [] "stage_b" "p1" "20250101_000000")
    "stage_a" "p2" "20250102_000000"

/-- A concrete batch for the pool: three units over natural-number inputs,
the middle one always failing. -/
def demo_runs : List (ℕ → Except String ℕ) :=
  [fun n => .ok (n + 1), fun _ => .error "boom", fun n => .ok (n * 2)]

/-- Inputs for demo_runs. -/
def demo_inputs : List ℕ := [10, 20, 30]

/-- Parameters for the C4 witness: a clean evaluation scoring 0.95 against
threshold 0.8. -/
def c4_witness_params : WritingLoopParams ℕ :=
  { max_iterations := 5
    quality_threshold := mkRat 4 5
    evaluate := fun _ _ => some ⟨mkRat 19 20, false, false, 0, ""⟩
    fix_issues := fun _ d => some (d + 1)
    polish := fun _ d => some (d + 1) }

theorem stable_insert_perm {α : Type} (le : α → α → Bool) (a : α) (l : List α) :
    (stable_insert le a l).Perm (a :: l) := by
  induction l with
  | nil => simp [stable_insert]
  | cons b l ih =>
    simp only [stable_insert]
    by_cases h : le a b = true
    · rw [if_pos h]
    · rw [if_neg h]
      exact (ih.cons b).trans (List.Perm.swap a b l)

theorem stable_sort_perm {α : Type} (le : α → α → Bool) (l : List α) :
    (stable_sort le l).Perm l := by
  induction l with
  | nil => simp [stable_sort]
  | cons a l ih =>
    exact (stable_insert_perm le a (stable_sort le l)).trans (ih.cons a)

theorem stable_sort_length {α : Type} (le : α → α → Bool) (l : List α) :
    (stable_sort le l).length = l.length :=
  (stable_sort_perm le l).length_eq

theorem stable_insert_pairwise {α : Type} {le : α → α → Bool}
    (htrans : ∀ a b c, le a b = true → le b c = true → le a c = true)
    (htotal : ∀ a b, le a b = true ∨ le b a = true) (a : α) {l : List α}
    (hl : l.Pairwise (fun x y => le x y = true)) :
    (stable_insert le a l).Pairwise (fun x y => le x y = true) := by
  induction l with
  | nil => simp [stable_insert]
  | cons b l ih =>
    rcases List.pairwise_cons.mp hl with ⟨hb, hl2⟩
    simp only [stable_insert]
    by_cases h : le a b = true
    · rw [if_pos h]
      refine List.pairwise_cons.mpr ⟨?_, hl⟩
      intro x hx
      rcases List.mem_cons.mp hx with rfl | hx2
      · exact h
      · exact htrans a b x h (hb x hx2)
    · rw [if_neg h]
      refine List.pairwise_cons.mpr ⟨?_, ih hl2⟩
      intro x hx
      have hx2 := (stable_insert_perm le a l).mem_iff.mp hx
      rcases List.mem_cons.mp hx2 with hEq | hx3
      · subst hEq
        rcases htotal x b with h1 | h1
        · exact absurd h1 h
        · exact h1
      · exact hb x hx3

theorem stable_sort_pairwise {α : Type} {le : α → α → Bool}
    (htrans : ∀ a b c, le a b = true → le b c = true → le a c = true)
    (htotal : ∀ a b, le a b = true ∨ le b a = true) (l : List α) :
    (stable_sort le l).Pairwise (fun x y => le x y = true) := by
  induction l with
  | nil => simp [stable_sort]
  | cons a l ih =>
    exact stable_insert_pairwise htrans htotal a ih

theorem sublist_stable_insert {α : Type} (le : α → α → Bool) (a : α)
    (l : List α) : l.Sublist (stable_insert le a l) := by
  induction l with
  | nil => simp [stable_insert]
  | cons b l ih =>
    simp only [stable_insert]
    by_cases h : le a b = true
    · rw [if_pos h]
      exact List.sublist_cons_self a (b :: l)
    · rw [if_neg h]
      exact List.Sublist.cons₂ b ih

theorem pair_sublist_stable_insert {α : Type} {le : α → α → Bool}
    {a b : α} {l : List α} (hab : le a b = true) (hb : b ∈ l) :
    [a, b].Sublist (stable_insert le a l) := by
  induction l with
  | nil => simp at hb
  | cons c l ih =>
    simp only [stable_insert]
    by_cases h : le a c = true
    · rw [if_pos h]
      exact List.Sublist.cons₂ a (List.singleton_sublist.mpr hb)
    · rw [if_neg h]
      rcases List.mem_cons.mp hb with rfl | hb2
      · exact absurd hab h
      · exact List.Sublist.cons c (ih hb2)

/-- Stability of the sort: a pair already ordered by the comparator (in
particular, any tie) keeps its relative order. -/
theorem pair_sublist_stable_sort {α : Type} {le : α → α → Bool}
    {a b : α} (hab : le a b = true) :
    ∀ {l : List α}, [a, b].Sublist l → [a, b].Sublist (stable_sort le l)
  | [], h => by simp at h
  | c :: l, h => by
    cases h with
    | cons _ h2 =>
      exact (pair_sublist_stable_sort hab h2).trans
        (sublist_stable_insert le c (stable_sort le l))
    | cons₂ _ h2 =>
      exact pair_sublist_stable_insert hab
        ((stable_sort_perm le l).mem_iff.mpr (List.singleton_sublist.mp h2))

theorem tag_results_length {ι ε α : Type} (runs : List (ι → Except ε α))
    (inputs : List ι) (hlen : runs.length = inputs.length) :
    (tag_results runs inputs).length = runs.length := by
  simp [tag_results, List.length_zip, hlen]

theorem tag_results_getElem {ι ε α : Type} (runs : List (ι → Except ε α))
    (inputs : List ι) (_hlen : runs.length = inputs.length) (i : ℕ)
    (hi : i < runs.length) (hi' : i < inputs.length)
    (ht : i < (tag_results runs inputs).length) :
    (tag_results runs inputs)[i] = (i, runs[i] inputs[i]) := by
  simp [tag_results, execute_one, List.getElem_zip]

theorem tag_results_pairwise {ι ε α : Type} (runs : List (ι → Except ε α))
    (inputs : List ι) :
    (tag_results runs inputs).Pairwise (fun a b => a.1 < b.1) := by
  rw [List.pairwise_iff_getElem]
  intro i j hi hj hij
  have hi2 : i < (runs.zip inputs).length := by
    simpa [tag_results] using hi
  have hj2 : j < (runs.zip inputs).length := by
    simpa [tag_results] using hj
  simp only [tag_results, List.getElem_map, List.getElem_enum]
  simpa [execute_one] using hij

/-- Sorting by index recovers the unique list whose keys are strictly
increasing, out of any completion-order permutation of it. -/
theorem sort_by_index_of_perm {β : Type} {l original : List (ℕ × β)}
    (hperm : l.Perm original)
    (hkeys : original.Pairwise (fun a b => a.1 < b.1)) :
    sort_by_index l = original := by
  have hsort : (sort_by_index l).Pairwise
      (fun a b : ℕ × β => (decide (a.1 ≤ b.1)) = true) := by
    apply stable_sort_pairwise
    · intro a b c hab hbc
      simp only [decide_eq_true_eq] at hab hbc ⊢
      omega
    · intro a b
      rcases Nat.le_total a.1 b.1 with h | h
      · exact Or.inl (by simpa using h)
      · exact Or.inr (by simpa using h)
  have hperm2 : (sort_by_index l).Perm original :=
    (stable_sort_perm _ l).trans hperm
  have hne : original.Pairwise (fun a b : ℕ × β => a.1 ≠ b.1) :=
    hkeys.imp (fun h => Nat.ne_of_lt h)
  have hne2 : (sort_by_index l).Pairwise (fun a b : ℕ × β => a.1 ≠ b.1) := by
    refine (List.Perm.pairwise_iff ?_ hperm2).mpr hne
    intro a b h
    exact h.symm
  have hsort2 : (sort_by_index l).Pairwise (fun a b : ℕ × β => a.1 < b.1) := by
    have := hsort.and hne2
    refine this.imp ?_
    intro a b h
    rcases h with ⟨h1, h2⟩
    simp only [decide_eq_true_eq] at h1
    omega
  haveI : IsAntisymm (ℕ × β) (fun a b => a.1 < b.1) :=
    ⟨fun a b h1 h2 => absurd (Nat.lt_trans h1 h2) (Nat.lt_irrefl _)⟩
  exact List.eq_of_perm_of_sorted hperm2 hsort2 hkeys

/-- Core behaviour of execute_agents under any completion order: the output
has one entry per input, and entry i is exactly what agent i produced on
input i. -/
theorem execute_agents_spec {ι ε α : Type} (pool_size : Option ℕ)
    (schedule : List (ℕ × Except ε α) → List (ℕ × Except ε α))
    (runs : List (ι → Except ε α)) (inputs : List ι)
    (hinit : pool_init_ok pool_size = true)
    (hlen : runs.length = inputs.length)
    (hsched : ∀ l, (schedule l).Perm l) :
    ∃ out, execute_agents pool_size schedule runs inputs = .ok out ∧
      out.length = inputs.length ∧
      ∀ i (hr : i < runs.length) (hi : i < inputs.length),
        out[i]? = some (runs[i] inputs[i]) := by
  by_cases hempty : runs.isEmpty
  · refine ⟨[], ?_, ?_, ?_⟩
    · simp [execute_agents, hinit, hlen, hempty]
    · have : runs = [] := List.isEmpty_iff.mp hempty
      subst this
      simp at hlen
      simp [hlen]
    · intro i hr hi
      have : runs = [] := List.isEmpty_iff.mp hempty
      subst this
      simp at hr
  · have hsorted : sort_by_index (schedule (tag_results runs inputs)) =
        tag_results runs inputs :=
      sort_by_index_of_perm (hsched _) (tag_results_pairwise runs inputs)
    refine ⟨(tag_results runs inputs).map Prod.snd, ?_, ?_, ?_⟩
    · simp [execute_agents, hinit, hlen, hempty, hsorted]
    · simp [tag_results_length runs inputs hlen, hlen]
    · intro i hr hi
      have ht : i < (tag_results runs inputs).length := by
        rw [tag_results_length runs inputs hlen]; exact hr
      have hm : i < ((tag_results runs inputs).map Prod.snd).length := by
        simpa using ht
      rw [List.getElem?_eq_getElem hm]
      congr 1
      rw [List.getElem_map]
      rw [tag_results_getElem runs inputs hlen i hr hi ht]

theorem max?_append_singleton (l : List ℕ) (n : ℕ) :
    (l ++ [n]).max? = some (match l.max? with
      | none => n
      | some m => Nat.max m n) := by
  cases l with
  | nil => simp [List.max?]
  | cons a t =>
    simp only [List.cons_append, List.max?_cons', List.max?]
    rw [List.foldl_append]
    simp

theorem get_latest_version_vm_store (store : List VersionRecord)
    (document_id content : String) :
    get_latest_version (vm_store store document_id content).1 document_id =
      some (vm_store store document_id content).2 := by
  simp only [vm_store, get_latest_version]
  rw [List.filter_append]
  simp only [List.filter_cons, List.filter_nil, beq_self_eq_true, if_pos]
  rw [List.map_append]
  simp only [List.map_cons, List.map_nil]
  rw [max?_append_singleton]
  cases h : ((store.filter (fun r => r.document_id == document_id)).map
      (fun r => r.version_num)).max? with
  | none => simp
  | some m => simp [Nat.max_eq_right (Nat.le_succ m)]

theorem vm_store_many_version_nums (document_id : String) :
    ∀ (contents : List String) (store : List VersionRecord),
    (vm_store_many store document_id contents).2 =
      List.range' (match get_latest_version store document_id with
        | some latest_num => latest_num + 1
        | none => 1) contents.length := by
  intro contents
  induction contents with
  | nil => intro store; simp [vm_store_many]
  | cons c cs ih =>
    intro store
    simp only [vm_store_many]
    rw [ih]
    rw [get_latest_version_vm_store store document_id c]
    simp only [List.length_cons, List.range'_succ]
    rfl

/-- C2: for every equal-length list of units and inputs and every
concurrency limit accepted by the pool (1, any N, or unbounded), and for
every completion order (any permutation of the tagged results),
execute_agents returns exactly one result per input, and the result at
index i is the output or captured error of unit i applied to input i. -/
theorem claim_c2_order_preservation {ι ε α : Type} (pool_size : Option ℕ)
    (schedule : List (ℕ × Except ε α) → List (ℕ × Except ε α))
    (runs : List (ι → Except ε α)) (inputs : List ι)
    (hinit : pool_init_ok pool_size = true)
    (hlen : runs.length = inputs.length)
    (hsched : ∀ l, (schedule l).Perm l) :
    ∃ out, execute_agents pool_size schedule runs inputs = .ok out ∧
      out.length = inputs.length ∧
      ∀ i (hr : i < runs.length) (hi : i < inputs.length),
        out[i]? = some (runs[i] inputs[i]) :=
  execute_agents_spec pool_size schedule runs inputs hinit hlen hsched

/-- Witness for C2: the concrete three-unit batch with limit 2 and reversed
completion order. -/
theorem claim_c2_witness :
    ∃ out, execute_agents (some 2) List.reverse demo_runs demo_inputs = .ok out ∧
      out.length = demo_inputs.length ∧
      ∀ i (_hr : i < demo_runs.length) (hi : i < demo_inputs.length),
        out[i]? = some (demo_runs[i] demo_inputs[i]) :=
  claim_c2_order_preservation (some 2) List.reverse demo_runs demo_inputs
    (by decide) (by decide) (fun l => l.reverse_perm)

/-- C3: when the unit at index k fails, the returned list carries the
captured error at index k, while every other index whose unit succeeded
still carries that unit's successful output; no sibling is cancelled. -/
theorem claim_c3_failure_isolation {ι ε α : Type} (pool_size : Option ℕ)
    (schedule : List (ℕ × Except ε α) → List (ℕ × Except ε α))
    (runs : List (ι → Except ε α)) (inputs : List ι)
    (hinit : pool_init_ok pool_size = true)
    (hlen : runs.length = inputs.length)
    (hsched : ∀ l, (schedule l).Perm l)
    (k : ℕ) (hkr : k < runs.length) (hki : k < inputs.length) (e : ε)
    (hfail : runs[k] inputs[k] = .error e) :
    ∃ out, execute_agents pool_size schedule runs inputs = .ok out ∧
      out.length = inputs.length ∧
      out[k]? = some (.error e) ∧
      ∀ i (hr : i < runs.length) (hi : i < inputs.length), i ≠ k →
        ∀ v, runs[i] inputs[i] = .ok v → out[i]? = some (.ok v) := by
  obtain ⟨out, hout, hlen2, hidx⟩ :=
    execute_agents_spec pool_size schedule runs inputs hinit hlen hsched
  refine ⟨out, hout, hlen2, ?_, ?_⟩
  · rw [hidx k hkr hki, hfail]
  · intro i hr hi _ v hv
    rw [hidx i hr hi, hv]

/-- Witness for C3: in the concrete batch, unit 1 fails with "boom" while
units 0 and 2 still deliver their outputs. -/
theorem claim_c3_witness :
    ∃ out, execute_agents (some 2) List.reverse demo_runs demo_inputs = .ok out ∧
      out.length = demo_inputs.length ∧
      out[1]? = some (.error "boom") ∧
      ∀ i (_hr : i < demo_runs.length) (hi : i < demo_inputs.length), i ≠ 1 →
        ∀ v, demo_runs[i] demo_inputs[i] = .ok v → out[i]? = some (.ok v) :=
  claim_c3_failure_isolation (some 2) List.reverse demo_runs demo_inputs
    (by decide) (by decide) (fun l => l.reverse_perm) 1 (by decide) (by decide)
    "boom" rfl

/-- C5: starting from a store holding no versions for the document, N
consecutive store calls hand back exactly the version numbers 1, 2, ..., N:
strictly increasing consecutive integers, no gaps, no repeats, from 1. -/
theorem claim_c5_version_numbering (store : List VersionRecord)
    (document_id : String) (contents : List String)
    (hnone : store.filter (fun r => r.document_id == document_id) = []) :
    (vm_store_many store document_id contents).2 =
      List.range' 1 contents.length := by
  rw [vm_store_many_version_nums document_id contents store]
  have h : get_latest_version store document_id = none := by
    simp [get_latest_version, hnone]
  rw [h]

/-- Witness for C5: three stores into an empty store yield versions
[1, 2, 3]. -/
theorem claim_c5_witness :
    (vm_store_many [] "resume" ["aaaa", "bbbb", "cccc"]).2 =
      List.range' 1 ["aaaa", "bbbb", "cccc"].length :=
  claim_c5_version_numbering [] "resume" ["aaaa", "bbbb", "cccc"] rfl

theorem clamp_score_step_range (e : DocumentEvaluation) :
    0 ≤ (clamp_score_step e).score ∧ (clamp_score_step e).score ≤ 1 := by
  rw [clamp_score_step]
  split
  · assumption
  · constructor
    · exact le_max_left 0 _
    · exact max_le (by norm_num) (min_le_left 1 _)

/-- C8: format_output clamps out-of-range scores into [0, 1]: a raw score
of 1.7 is stored as exactly 1 and a raw score of -0.3 as exactly 0, and
every DocumentEvaluation format_output produces has its score in [0, 1]. -/
theorem claim_c8_score_clamping :
    document_evaluator_format_output
        (.dict ⟨none, some (mkRat 17 10), none, none, none, none⟩) =
      .evaluation ⟨1, false, false, 0, ""⟩ ∧
    document_evaluator_format_output
        (.dict ⟨none, some (mkRat (-3) 10), none, none, none, none⟩) =
      .evaluation ⟨0, false, false, 0, ""⟩ ∧
    ∀ (raw_output : RawOutput) (e : DocumentEvaluation),
      document_evaluator_format_output raw_output = .evaluation e →
      0 ≤ e.score ∧ e.score ≤ 1 := by
  refine ⟨by decide, by decide, ?_⟩
  intro raw_output e h
  cases raw_output with
  | dict d =>
    rw [document_evaluator_format_output] at h
    split at h
    · exact absurd h (by simp)
    · cases h
      exact clamp_score_step_range _
  | other shown =>
    rw [document_evaluator_format_output] at h
    cases h
    exact clamp_score_step_range _

/-- Witness for C8: the range statement applied to a concrete malformed
payload, whose fallback evaluation indeed scores inside [0, 1]. -/
theorem claim_c8_witness :
    0 ≤ (DocumentEvaluation.mk 0 true false 1
        "Evaluation failed - unexpected output format").score ∧
      (DocumentEvaluation.mk 0 true false 1
        "Evaluation failed - unexpected output format").score ≤ 1 :=
  claim_c8_score_clamping.2.2 (.other "not a dict")
    ⟨0, true, false, 1, "Evaluation failed - unexpected output format"⟩
    (by decide)

/-- C9: select_top_jds returns min(n, count) ids; it is the map of jd_id
over a descending stable sort of the matches truncated to n; any pair
already in descending order (in particular any tie) keeps its relative
order in the sort; when n is at least the candidate count all candidates
are returned sorted descending; and on scores [0.91, 0.75, 0.65] with n=2
it returns the ids of the two highest, best first. -/
theorem claim_c9_select_top_n :
    (∀ (match_list : List MatchResult) (top_n : ℕ),
      (select_top_jds match_list top_n).length = min top_n match_list.length) ∧
    (∀ (match_list : List MatchResult) (top_n : ℕ),
      ∃ l : List MatchResult, l.Perm match_list ∧
        l.Pairwise (fun a b => b.match_score ≤ a.match_score) ∧
        select_top_jds match_list top_n = (l.take top_n).map (fun m => m.jd_id)) ∧
    (∀ (match_list : List MatchResult) (a b : MatchResult),
      [a, b].Sublist match_list → b.match_score ≤ a.match_score →
      [a, b].Sublist (stable_sort
        (fun a b => decide (b.match_score ≤ a.match_score)) match_list)) ∧
    (∀ (match_list : List MatchResult) (top_n : ℕ),
      match_list.length ≤ top_n →
      select_top_jds match_list top_n = (stable_sort
        (fun a b => decide (b.match_score ≤ a.match_score)) match_list).map
        (fun m => m.jd_id)) ∧
    select_top_jds demo_matches 2 = ["JD-A", "JD-B"] := by
  have hsorted : ∀ match_list : List MatchResult,
      (stable_sort (fun a b => decide (b.match_score ≤ a.match_score))
        match_list).Pairwise (fun a b => b.match_score ≤ a.match_score) := by
    intro match_list
    have h := @stable_sort_pairwise MatchResult
      (fun a b : MatchResult => decide (b.match_score ≤ a.match_score))
      (fun a b c hab hbc => by
        simp only [decide_eq_true_eq] at hab hbc ⊢
        exact hbc.trans hab)
      (fun a b => by
        rcases le_total b.match_score a.match_score with h | h
        · exact Or.inl (by simpa using h)
        · exact Or.inr (by simpa using h))
      match_list
    exact h.imp (fun hx => by simpa using hx)
  refine ⟨?_, ?_, ?_, ?_, by decide⟩
  · intro match_list top_n
    simp [select_top_jds, stable_sort_length]
  · intro match_list top_n
    exact ⟨stable_sort (fun a b => decide (b.match_score ≤ a.match_score))
        match_list,
      stable_sort_perm _ match_list, hsorted match_list, rfl⟩
  · intro match_list a b hsub hscore
    exact pair_sublist_stable_sort (by simpa using hscore) hsub
  · intro match_list top_n hn
    rw [select_top_jds]
    rw [List.take_of_length_le (by rw [stable_sort_length]; exact hn)]

/-- Witness for C9: the quantified parts instantiated on concrete match
lists, including a tie whose relative order survives the sort. -/
theorem claim_c9_witness :
    (select_top_jds demo_matches 5).length = min 5 demo_matches.length ∧
    [MatchResult.mk "T-1" (mkRat 7 10) 0 [] [] "",
      MatchResult.mk "T-2" (mkRat 7 10) 0 [] [] ""].Sublist
      (stable_sort (fun a b => decide (b.match_score ≤ a.match_score))
        [⟨"T-1", mkRat 7 10, 0, [], [], ""⟩,
         ⟨"T-2", mkRat 7 10, 0, [], [], ""⟩,
         ⟨"T-3", mkRat 9 10, 0, [], [], ""⟩]) ∧
    select_top_jds demo_matches 5 =
      (stable_sort (fun a b => decide (b.match_score ≤ a.match_score))
        demo_matches).map (fun m => m.jd_id) :=
  ⟨claim_c9_select_top_n.1 demo_matches 5,
   claim_c9_select_top_n.2.2.1
     [⟨"T-1", mkRat 7 10, 0, [], [], ""⟩,
      ⟨"T-2", mkRat 7 10, 0, [], [], ""⟩,
      ⟨"T-3", mkRat 9 10, 0, [], [], ""⟩]
     ⟨"T-1", mkRat 7 10, 0, [], [], ""⟩
     ⟨"T-2", mkRat 7 10, 0, [], [], ""⟩
     (List.Sublist.cons₂ _ (List.Sublist.cons₂ _ (List.nil_sublist _)))
     (by decide),
   claim_c9_select_top_n.2.2.2.1 demo_matches 5 (by decide)⟩

/-- C10 counterexample: at actual_length 0 and target_length -1 the
returned score is 2, outside [0, 1], refuting the all-inputs range claim. -/
theorem claim_c10_counterexample :
    calculate_length_score 0 (-1) = 2 ∧
    ¬(calculate_length_score 0 (-1) ≤ 1) := by
  have h : calculate_length_score 0 (-1) = 2 := by
    rw [calculate_length_score]
    norm_num
  exact ⟨h, by rw [h]; norm_num⟩

/-- C10 (amended): calculate_length_score is total, returns 0 whenever the
target is 0, and its value lies in [0, 1] for every actual length and every
non-negative target (a negative target can push the score above 1). -/
theorem claim_c10_length_score_range :
    (∀ a : ℤ, calculate_length_score a 0 = 0) ∧
    (∀ (a t : ℤ), 0 ≤ t →
      0 ≤ calculate_length_score a t ∧ calculate_length_score a t ≤ 1) := by
  constructor
  · intro a
    rw [calculate_length_score]
    norm_num
  · intro a t ht
    rcases eq_or_lt_of_le ht with h0 | hpos
    · rw [calculate_length_score, if_pos h0.symm]
      norm_num
    · rw [calculate_length_score, if_neg (by omega)]
      have hq : (0 : ℚ) ≤ ((|a - t| : ℤ) : ℚ) / (t : ℚ) := by
        apply div_nonneg
        · exact_mod_cast abs_nonneg (a - t)
        · exact_mod_cast hpos.le
      constructor
      · exact le_max_left 0 _
      · exact max_le (by norm_num) (by linarith)

/-- Witness for C10: the range statement at actual 900, target 1000. -/
theorem claim_c10_witness :
    0 ≤ calculate_length_score 900 1000 ∧ calculate_length_score 900 1000 ≤ 1 :=
  claim_c10_length_score_range.2 900 1000 (by norm_num)

/-- C1 (code bug): the claimed scenario-B run cannot happen. Every
version_manager.run call the orchestrator makes — beginning with the
step-6 version-0 store — passes the keys draft/version_number/document_type
while VersionManager.validate_input requires document_id (plus content for
a store and version_num for a restore), so validation fails and
BaseAgent.run raises ValueError: execute aborts before the evaluation
loop. No iteration, no regression rollback and no terminal status ever
occur — in particular never "regressed_and_restored" — at scenario B's
configuration or any other. -/
theorem claim_c1_version_store_crash :
    vm_validate_input orchestra_store_version_input = false ∧
    vm_validate_input orchestra_restore_version_input = false ∧
    (∀ (δ : Type) (p : WritingLoopParams δ) (processed_draft : δ),
      writing_polishing_execute p processed_draft =
        .raised vm_invalid_input_error) ∧
    writing_polishing_execute scenario_b_params 0 =
      .raised vm_invalid_input_error := by
  have hv : vm_validate_input orchestra_store_version_input = false := by decide
  refine ⟨hv, by decide, ?_, ?_⟩
  · intro δ p processed_draft
    rw [writing_polishing_execute, if_neg (by simp [hv])]
  · rw [writing_polishing_execute, if_neg (by simp [hv])]

/-- C4: in every run of the evaluation loop, as soon as the evaluation
computed at the pending iteration scores at least quality_threshold, the
loop performs no further iteration (the step never yields .next) and
terminates on that iteration, so polish is never invoked on it or ever
again: with no critical issues and no score regression it breaks with the
complete decision; with critical issues the issue_fixer.run call raises
ValueError (fixer_input lacks parsed_jd) and with a regression the restore
call raises (its input lacks document_id/version_num), terminating the run
by a propagated exception. The loop itself is unreachable in the current
source because execute raises at the step-6 version store (see C1). -/
theorem claim_c4_convergence {δ : Type} (p : WritingLoopParams δ)
    (st : WritingLoopState δ) (fuel : ℕ)
    (hgood : p.quality_threshold ≤ ((p.evaluate (st.iteration + 1)
      st.current_draft).getD default_task_instruction_evaluation).score) :
    (∀ st2, writing_loop_step p st ≠ .next st2) ∧
    ((∃ st2, writing_loop_step p st = .stop st2 ∧
        writing_loop_run p (fuel + 1) st = .finished st2 ∧
        st2.iteration = st.iteration + 1 ∧
        st2.evaluation_path = st.evaluation_path ++ ["complete"]) ∨
     (∃ msg, writing_loop_step p st = .raised msg ∧
        writing_loop_run p (fuel + 1) st = .raised msg)) := by
  have hmain : (∃ st2, writing_loop_step p st = .stop st2 ∧
      st2.iteration = st.iteration + 1 ∧
      st2.evaluation_path = st.evaluation_path ++ ["complete"]) ∨
      (∃ msg, writing_loop_step p st = .raised msg) := by
    rw [writing_loop_step]
    by_cases hc : has_critical_issues ((p.evaluate (st.iteration + 1)
        st.current_draft).getD default_task_instruction_evaluation) = true
    · rw [if_pos hc, if_neg (by decide)]
      exact Or.inr ⟨_, rfl⟩
    · rw [if_neg hc]
      by_cases hdec : (decide (1 < st.iteration + 1) &&
          did_score_decrease ((p.evaluate (st.iteration + 1)
            st.current_draft).getD default_task_instruction_evaluation).score
            st.previous_score) = true
      · rw [if_pos hdec, if_neg (by decide)]
        exact Or.inr ⟨_, rfl⟩
      · rw [if_neg hdec, if_pos (by simpa [is_score_good_enough] using hgood)]
        exact Or.inl ⟨_, rfl, rfl, rfl⟩
  constructor
  · intro st2 hne
    rcases hmain with ⟨st3, h3, _, _⟩ | ⟨msg, h3⟩ <;> rw [h3] at hne <;>
      cases hne
  · rcases hmain with ⟨st3, h3, hi, hp⟩ | ⟨msg, h3⟩
    · exact Or.inl ⟨st3, h3, by rw [writing_loop_run, h3], hi, hp⟩
    · exact Or.inr ⟨msg, h3, by rw [writing_loop_run, h3]⟩

/-- Witness for C4: at the witness configuration the first iteration's
clean 0.95 evaluation meets the 0.8 threshold and the loop stops there. -/
theorem claim_c4_witness :
    (∀ st2, writing_loop_step c4_witness_params (initial_writing_state 0) ≠
      .next st2) ∧
    ((∃ st2, writing_loop_step c4_witness_params (initial_writing_state 0) =
        .stop st2 ∧
        writing_loop_run c4_witness_params (2 + 1) (initial_writing_state 0) =
          .finished st2 ∧
        st2.iteration = (initial_writing_state (0 : ℕ)).iteration + 1 ∧
        st2.evaluation_path =
          (initial_writing_state (0 : ℕ)).evaluation_path ++ ["complete"]) ∨
     (∃ msg, writing_loop_step c4_witness_params (initial_writing_state 0) =
        .raised msg ∧
        writing_loop_run c4_witness_params (2 + 1) (initial_writing_state 0) =
          .raised msg)) :=
  claim_c4_convergence c4_witness_params (initial_writing_state 0) 2 (by decide)

/-- C6 (code bug): after saving a checkpoint for stage "stage_b" and then a
LATER one for stage "stage_a", load_latest_checkpoint returns the "stage_b"
checkpoint, although the "stage_a" record has the strictly greater
created_at timestamp: the files are sorted by their stage-prefixed file
names, not by timestamp as the claim (and the code's own docstring)
require. -/
theorem claim_c6_latest_checkpoint_bug :
    load_latest_checkpoint demo_checkpoints =
      some ("stage_b", ⟨"stage_b", "p1", "20250101_000000"⟩) ∧
    demo_checkpoints = [⟨"stage_b", "p1", "20250101_000000"⟩,
      ⟨"stage_a", "p2", "20250102_000000"⟩] ∧
    str_lt "20250101_000000" "20250102_000000" = true := by
  refine ⟨by decide, by decide, by decide⟩

/-- C7 counterexample: the weighted confidence of validator scores
[0.9, 0.6, 0.8, 0.7] under weights [0.30, 0.25, 0.25, 0.20] is 19/25 =
0.76, not 0.755 (0.755 would need the weights paired differently than
listed). -/
theorem claim_c7_counterexample :
    calculate_confidence_score scenario_c_results none = 19/25 ∧
    (19/25 : ℚ) ≠ 151/200 := by
  constructor
  · simp [calculate_confidence_score, scenario_c_results,
      default_confidence_weights, List.lookup]
    norm_num
  · norm_num

/-- C7 (amended): the weighted confidence of [0.9, 0.6, 0.8, 0.7] under
weights [0.30, 0.25, 0.25, 0.20] is exactly 0.76, and at threshold 0.85
(iteration 1 of 3) the merge loop branches to a refinement call rather than
exiting. -/
theorem claim_c7_confidence_refine :
    calculate_confidence_score scenario_c_results none = 19/25 ∧
    merge_loop_decision (calculate_confidence_score scenario_c_results none)
      (17/20) 1 3 = .refine := by
  have h : calculate_confidence_score scenario_c_results none = 19/25 := by
    simp [calculate_confidence_score, scenario_c_results,
      default_confidence_weights, List.lookup]
    norm_num
  refine ⟨h, ?_⟩
  rw [h, merge_loop_decision]
  norm_num

end ATS
